import Mathlib

/-!
Shallow embedding of the A2A (agent-to-agent) protocol subsystem of the
repository: the protocol data model (`src/chatbot/a2a/common/types.py`),
the in-memory task manager and JSON-RPC server
(`src/chatbot/a2a/common/server.py`), the protocol client SSE consumer
(`src/chatbot/a2a/common/client.py`) and the host agent routing logic
(`src/chatbot/a2a/hosts/host_agent.py`).

Python dictionaries are embedded as insertion-ordered association lists,
exceptions as `Except String` values (the string is the exception
message), and wall-clock timestamp generation (`_get_iso_timestamp`) is
abstracted as a `String` argument supplied by the caller.  JSON values
(used for `metadata` fields, `DataPart` payloads and parsed SSE frames)
are embedded as the inductive `JVal`.
-/

set_option autoImplicit false

namespace A2A

/-- JSON value, used for free-form `metadata` maps, `DataPart` payloads
and parsed SSE frames. Objects keep their key order. -/
inductive JVal where
  | null : JVal
  | bool (b : Bool) : JVal
  | num (n : Int) : JVal
  | str (s : String) : JVal
  | arr (elems : List JVal) : JVal
  | obj (fields : List (String × JVal)) : JVal

/-- Task lifecycle states, from `types.py` `TaskState`. -/
inductive TaskState where
  | SUBMITTED
  | WORKING
  | INPUT_REQUIRED
  | COMPLETED
  | CANCELED
  | FAILED
  | UNKNOWN
deriving DecidableEq, Repr

/-- File payload of a `FilePart`, from `types.py` `FileContent`. -/
structure FileContent where
  name : Option String := none
  mimeType : Option String := none
  bytes : Option String := none
  uri : Option String := none

/-- Message/artifact part. The source has classes `TextPart`, `FilePart`,
`DataPart` discriminated by their `type` tag (and probed via
`hasattr(part, "text")`), which is a tagged union. -/
inductive Part where
  | text (text : String) (metadata : Option (List (String × JVal)) := none)
  | file (file : FileContent) (metadata : Option (List (String × JVal)) := none)
  | data (data : List (String × JVal)) (metadata : Option (List (String × JVal)) := none)

/-- Text payload of a part when it has one, i.e. the embedding of the
source idiom `hasattr(part, "text")` followed by `part.text`. -/
def Part.textOf : Part → Option String
  | .text t _ => some t
  | _ => none

/-- A protocol message, from `types.py` `Message`. -/
structure Message where
  role : String
  parts : List Part
  metadata : Option (List (String × JVal)) := none

/-- Status record of a task, from `types.py` `TaskStatus`. -/
structure TaskStatus where
  state : TaskState
  message : Option Message := none
  timestamp : String

/-- An output artifact of a task, from `types.py` `Artifact`. -/
structure Artifact where
  name : Option String := none
  description : Option String := none
  parts : List Part
  index : Int := 0
  append : Option Bool := none
  lastChunk : Option Bool := none
  metadata : Option (List (String × JVal)) := none

/-- A task record, from `types.py` `Task`. -/
structure Task where
  id : String
  sessionId : Option String := none
  status : TaskStatus
  artifacts : Option (List Artifact) := none
  history : Option (List Message) := none
  metadata : Option (List (String × JVal)) := none

/-- Push notification webhook descriptor, from `types.py`
`PushNotificationConfig`. -/
structure PushNotificationConfig where
  url : String
  token : Option String := none
  authentication : Option JVal := none

/-- Pair of task id and push config, from `types.py`
`TaskPushNotificationConfig`. -/
structure TaskPushNotificationConfig where
  id : String
  pushNotification : PushNotificationConfig

/-- Parameters of `tasks/send`, from `types.py` `TaskSendParams`
(which extends `TaskQueryParams`, hence the `historyLength` field). -/
structure TaskSendParams where
  id : String
  historyLength : Option Int := none
  sessionId : Option String := none
  message : Message
  pushNotification : Option PushNotificationConfig := none
  metadata : Option (List (String × JVal)) := none

/-- Status streaming event, from `types.py` `TaskStatusUpdateEvent`. -/
structure TaskStatusUpdateEvent where
  id : String
  status : TaskStatus
  final : Bool := false
  metadata : Option (List (String × JVal)) := none

/-- Artifact streaming event, from `types.py` `TaskArtifactUpdateEvent`. -/
structure TaskArtifactUpdateEvent where
  id : String
  artifact : Artifact
  final : Bool := false
  metadata : Option (List (String × JVal)) := none

/-- A streamed event is either a status update or an artifact update
(the `Union` type appearing in the signatures of `get_task_stream` and
the client subscription generators). -/
inductive Event where
  | status (e : TaskStatusUpdateEvent) : Event
  | artifact (e : TaskArtifactUpdateEvent) : Event

/-- Final flag of an event, whichever variant it is (`update.final`). -/
def Event.final : Event → Bool
  | .status e => e.final
  | .artifact e => e.final

/-- Membership of a key in an insertion-ordered dictionary
(the Python idiom `k in d`). -/
def hasKey {β : Type} (m : List (String × β)) (k : String) : Bool :=
  m.any (fun p => p.1 = k)

/-- Lookup in an insertion-ordered dictionary (the Python idiom `d[k]`,
made total by returning an option). -/
def lookupKey {β : Type} (k : String) : List (String × β) → Option β
  | [] => none
  | (k2, v) :: rest => if k2 = k then some v else lookupKey k rest

/-- Assignment `d[k] = v` on an insertion-ordered dictionary: overwrites
the entry in place when the key exists, otherwise appends it. -/
def setKey {β : Type} (m : List (String × β)) (k : String) (v : β) : List (String × β) :=
  match m with
  | [] => [(k, v)]
  | (k2, v2) :: rest => if k2 = k then (k, v) :: rest else (k2, v2) :: setKey rest k v

/-- Whether `pat` occurs at the start of `l` (character-list view of a
Python string comparison). -/
def charsStartWith : List Char → List Char → Bool
  | [], _ => true
  | _ :: _, [] => false
  | a :: as, b :: bs => a = b && charsStartWith as bs

/-- Whether `pat` occurs anywhere inside `l`. -/
def charsContain (pat : List Char) : List Char → Bool
  | [] => charsStartWith pat []
  | b :: bs => charsStartWith pat (b :: bs) || charsContain pat bs

/-- The Python substring test `pat in s`. -/
def strContains (s pat : String) : Bool :=
  charsContain pat.toList s.toList

/-- Whether a state is terminal, i.e. the membership test
`state in [TaskState.COMPLETED, TaskState.CANCELED, TaskState.FAILED]`
used throughout `server.py`. -/
def isFinalState (s : TaskState) : Bool :=
  s = TaskState.COMPLETED || s = TaskState.CANCELED || s = TaskState.FAILED

/-- Mutable state of `InMemoryTaskManager` (`server.py` lines 76-86):
the task table, the push notification table, the two capability flags and
the per-task list of subscriber queues.  Each subscriber queue is the
ordered list of events that were put into it (`asyncio.Queue` contents
in FIFO order, enqueued end first at the tail). -/
structure ManagerState where
  tasks : List (String × Task) := []
  pushNotifications : List (String × PushNotificationConfig) := []
  supportsStreaming : Bool := true
  supportsPushNotifications : Bool := false
  taskStreams : List (String × List (List Event)) := []

/-- The status event built by `_send_status_update` for a task:
`final` is true exactly when the state is terminal. -/
def statusEventOf (t : Task) : Event :=
  Event.status { id := t.id, status := t.status, final := isFinalState t.status.state }

/-- Embedding of `InMemoryTaskManager._send_status_update` (`server.py`
lines 218-230).  Returns the new state together with the list of update
events that were broadcast (empty when the guard returns early, a
singleton when the update was put into every subscriber queue of the
task). -/
def sendStatusUpdate (s : ManagerState) (t : Task) : ManagerState × List Event :=
  if !s.supportsStreaming || !(hasKey s.taskStreams t.id) then
    (s, [])
  else
    let update := statusEventOf t
    let queues := (lookupKey t.id s.taskStreams).getD []
    ({ s with taskStreams := setKey s.taskStreams t.id (queues.map (fun q => q ++ [update])) },
     [update])

/-- Merge step of `InMemoryTaskManager.send_artifact_update` (`server.py`
lines 244-260): scan for the first existing artifact with the same index;
on a hit either extend its parts (`artifact.append` truthy, i.e.
`some true`) or replace it wholesale, otherwise append the new artifact
at the end. -/
def updateArtifacts (arts : List Artifact) (a : Artifact) : List Artifact :=
  match arts with
  | [] => [a]
  | e :: rest =>
    if e.index = a.index then
      (if a.append = some true then { e with parts := e.parts ++ a.parts } else a) :: rest
    else
      e :: updateArtifacts rest a

/-- Embedding of `InMemoryTaskManager.send_artifact_update` (`server.py`
lines 232-272).  Returns the new state and the broadcast artifact events
(empty when either early-return guard fires). -/
def sendArtifactUpdate (s : ManagerState) (taskId : String) (artifact : Artifact)
    (final : Bool) : ManagerState × List Event :=
  if !s.supportsStreaming || !(hasKey s.taskStreams taskId) then
    (s, [])
  else
    match lookupKey taskId s.tasks with
    | none => (s, [])
    | some task =>
      let newArts := updateArtifacts (task.artifacts.getD []) artifact
      let task2 := { task with artifacts := some newArts }
      let update := Event.artifact { id := taskId, artifact := artifact, final := final }
      let queues := (lookupKey taskId s.taskStreams).getD []
      ({ s with
           tasks := setKey s.tasks taskId task2,
           taskStreams := setKey s.taskStreams taskId (queues.map (fun q => q ++ [update])) },
       [update])

/-- Embedding of `InMemoryTaskManager.create_task` (`server.py` lines
92-149).  The processing callback `proc` models `self.task_processor`
(`none` when no processor is registered); a raised exception is the
`Except.error` case carrying `str(e)`.  `ts` stands in for
`_get_iso_timestamp()`.  Returns the new manager state, the list of
status events broadcast during the call (in order), and the returned
task (`self.tasks[task_id]`). -/
def createTask (proc : Option (TaskSendParams → Except String Task))
    (s : ManagerState) (p : TaskSendParams) (ts : String) :
    ManagerState × List Event × Task :=
  let task : Task :=
    { id := p.id,
      sessionId := p.sessionId,
      status := { state := TaskState.SUBMITTED, message := some p.message, timestamp := ts },
      artifacts := some [],
      metadata := some (p.metadata.getD []) }
  let s1 := { s with tasks := setKey s.tasks p.id task }
  let s2 :=
    if s1.supportsStreaming then
      { s1 with taskStreams := setKey s1.taskStreams p.id [] }
    else s1
  let s3 :=
    match p.pushNotification with
    | some cfg =>
      if s2.supportsPushNotifications then
        { s2 with pushNotifications := setKey s2.pushNotifications p.id cfg }
      else s2
    | none => s2
  match proc with
  | none => (s3, [], (lookupKey p.id s3.tasks).getD task)
  | some f =>
    let working : Task :=
      { task with status := { state := TaskState.WORKING, message := none, timestamp := ts } }
    let s4 := { s3 with tasks := setKey s3.tasks p.id working }
    let (s5, evs1) := sendStatusUpdate s4 working
    match f p with
    | Except.ok updated =>
      let s6 := { s5 with tasks := setKey s5.tasks p.id updated }
      let (s7, evs2) := sendStatusUpdate s6 updated
      (s7, evs1 ++ evs2, (lookupKey p.id s7.tasks).getD updated)
    | Except.error e =>
      let failed : Task :=
        { working with
            status :=
              { state := TaskState.FAILED,
                message := some
                  { role := "agent",
                    parts := [Part.text ("Task processing failed: " ++ e)] },
                timestamp := ts } }
      let s6 := { s5 with tasks := setKey s5.tasks p.id failed }
      let (s7, evs2) := sendStatusUpdate s6 failed
      (s7, evs1 ++ evs2, (lookupKey p.id s7.tasks).getD failed)

/-- Embedding of `InMemoryTaskManager.get_task` (`server.py` lines
151-160).  The `history_length` parameter is accepted but — as the
source's TODO comment records — never applied: the stored task is
returned unchanged. -/
def getTask (s : ManagerState) (taskId : String) (historyLength : Option Int) :
    Except String Task :=
  match lookupKey taskId s.tasks with
  | none => Except.error ("Task not found: " ++ taskId)
  | some task => Except.ok task

/-- Embedding of `InMemoryTaskManager.cancel_task` (`server.py` lines
162-185).  Errors are `ValueError` messages; on success the new state,
broadcast events and the canceled task are returned. -/
def cancelTask (s : ManagerState) (taskId : String) (ts : String) :
    Except String (ManagerState × List Event × Task) :=
  match lookupKey taskId s.tasks with
  | none => Except.error ("Task not found: " ++ taskId)
  | some task =>
    if isFinalState task.status.state then
      Except.error "Task is already in a final state and cannot be canceled"
    else
      let task2 : Task :=
        { task with
            status :=
              { state := TaskState.CANCELED,
                message := some { role := "agent", parts := [Part.text "Task was canceled"] },
                timestamp := ts } }
      let s1 := { s with tasks := setKey s.tasks taskId task2 }
      let (s2, evs) := sendStatusUpdate s1 task2
      Except.ok (s2, evs, task2)

/-- Embedding of `InMemoryTaskManager.set_push_notification` (`server.py`
lines 187-200). -/
def setPushNotification (s : ManagerState) (taskId : String)
    (config : PushNotificationConfig) :
    Except String (ManagerState × TaskPushNotificationConfig) :=
  if !s.supportsPushNotifications then
    Except.error "Push notifications are not supported"
  else if !(hasKey s.tasks taskId) then
    Except.error ("Task not found: " ++ taskId)
  else
    Except.ok
      ({ s with pushNotifications := setKey s.pushNotifications taskId config },
       { id := taskId, pushNotification := config })

/-- Embedding of `InMemoryTaskManager.get_push_notification` (`server.py`
lines 202-216). -/
def getPushNotification (s : ManagerState) (taskId : String) :
    Except String TaskPushNotificationConfig :=
  if !s.supportsPushNotifications then
    Except.error "Push notifications are not supported"
  else if !(hasKey s.tasks taskId) then
    Except.error ("Task not found: " ++ taskId)
  else
    match lookupKey taskId s.pushNotifications with
    | none => Except.error ("No push notification configuration for task: " ++ taskId)
    | some cfg => Except.ok { id := taskId, pushNotification := cfg }

/-- The idle timeout, in seconds, of the subscriber wait loop in
`get_task_stream` (`asyncio.wait_for(queue.get(), timeout=300)`,
`server.py` line 320). -/
def streamIdleTimeoutSeconds : Nat := 300

/-- Tail of the subscription loop of `get_task_stream` (`server.py` lines
318-327): events are taken from the subscriber queue in publication
order and yielded one by one; the loop breaks right after yielding an
event whose `final` flag is true.  `published` is the sequence of events
put into this subscriber queue; when it is exhausted with no final event
the `asyncio.TimeoutError` branch breaks the loop after the idle
timeout, ending the stream without error. -/
def takeUntilFinal : List Event → List Event
  | [] => []
  | e :: rest => if e.final then [e] else e :: takeUntilFinal rest

/-- Embedding of the sequence of events yielded by
`InMemoryTaskManager.get_task_stream` (`server.py` lines 274-331) to one
subscriber: the guard checks, the synthetic initial status event, the
replay of stored artifacts as non-final artifact events, the early
return when the task is already terminal, and otherwise the queue loop
(`takeUntilFinal`) over the events subsequently published to this
subscriber. -/
def streamYields (s : ManagerState) (taskId : String) (published : List Event) :
    Except String (List Event) :=
  if !s.supportsStreaming then
    Except.error "Streaming is not supported"
  else
    match lookupKey taskId s.tasks with
    | none => Except.error ("Task not found: " ++ taskId)
    | some task =>
      let initial := statusEventOf task
      let artEvents := (task.artifacts.getD []).map
        (fun a => Event.artifact { id := task.id, artifact := a, final := false })
      if isFinalState task.status.state then
        Except.ok (initial :: artEvents)
      else
        Except.ok (initial :: artEvents ++ takeUntilFinal published)

/-- JSON-RPC error codes from the `ErrorCode` class of `server.py`
(lines 27-41). -/
def ErrorCode.PARSE_ERROR : Int := -32700

/-- JSON-RPC error code for a malformed JSON-RPC envelope. -/
def ErrorCode.INVALID_REQUEST : Int := -32600

/-- JSON-RPC error code for an unknown method. -/
def ErrorCode.METHOD_NOT_FOUND : Int := -32601

/-- JSON-RPC error code for invalid parameters. -/
def ErrorCode.INVALID_PARAMS : Int := -32602

/-- JSON-RPC error code for an internal error. -/
def ErrorCode.INTERNAL_ERROR : Int := -32603

/-- A2A-specific JSON-RPC error code: task not found. -/
def ErrorCode.TASK_NOT_FOUND : Int := -32001

/-- A2A-specific JSON-RPC error code: task not cancelable. -/
def ErrorCode.TASK_NOT_CANCELABLE : Int := -32002

/-- A2A-specific JSON-RPC error code: push notifications unsupported. -/
def ErrorCode.PUSH_NOTIFICATION_NOT_SUPPORTED : Int := -32003

/-- A2A-specific JSON-RPC error code: unsupported operation. -/
def ErrorCode.UNSUPPORTED_OPERATION : Int := -32004

/-- A2A-specific JSON-RPC error code: content type not supported. -/
def ErrorCode.CONTENT_TYPE_NOT_SUPPORTED : Int := -32005

/-- The `ValueError`-message-to-error-code mapping of
`A2AServer.handle_jsonrpc` (`server.py` lines 427-449): substring checks
on the exception text, in source order, falling through to
`INVALID_PARAMS`. -/
def errorCodeForMessage (msg : String) : Int :=
  if strContains msg "Task not found" then ErrorCode.TASK_NOT_FOUND
  else if strContains msg "Task is already in a final state" then ErrorCode.TASK_NOT_CANCELABLE
  else if strContains msg "Push notifications are not supported" then
    ErrorCode.PUSH_NOTIFICATION_NOT_SUPPORTED
  else if strContains msg "Streaming is not supported" then ErrorCode.UNSUPPORTED_OPERATION
  else ErrorCode.INVALID_PARAMS

/-- Typed parameters of a JSON-RPC call, standing for the already
pydantic-validated `params` object of each `_handle_*` wrapper. -/
inductive RpcParams where
  | send (p : TaskSendParams) : RpcParams
  | query (id : String) (historyLength : Option Int) : RpcParams
  | taskId (id : String) : RpcParams
  | pushConfig (cfg : TaskPushNotificationConfig) : RpcParams

/-- Response produced by `handle_jsonrpc`: a JSON-RPC success carrying a
task, a success carrying a push notification config, a JSON-RPC error
object (code and message), or a `StreamingResponse` whose SSE body is
produced lazily after the handler returns. -/
inductive RpcResponse where
  | task (t : Task) : RpcResponse
  | pushConfig (c : TaskPushNotificationConfig) : RpcResponse
  | error (code : Int) (message : String) : RpcResponse
  | streaming : RpcResponse

/-- Task-manager operations reached by a dispatch, recorded so that
theorems can speak about which manager work a request performed before
the response was produced. -/
inductive MgrCall where
  | createTask (id : String) : MgrCall
  | getTask (id : String) : MgrCall
  | cancelTask (id : String) : MgrCall
  | setPush (id : String) : MgrCall
  | getPush (id : String) : MgrCall

/-- Outcome of one `handle_jsonrpc` dispatch: the HTTP response, the
manager state after the synchronous part of the request, and the
manager operations invoked during it. -/
structure RpcOutcome where
  response : RpcResponse
  state : ManagerState
  calls : List MgrCall

/-- Embedding of `A2AServer._handle_get_task` (`server.py` lines
491-497): any manager exception is re-raised as
`ValueError("Invalid params: " + str(e))`. -/
def handleGetTask (s : ManagerState) (taskId : String) (historyLength : Option Int) :
    Except String Task :=
  (getTask s taskId historyLength).mapError (fun e => "Invalid params: " ++ e)

/-- Embedding of `A2AServer._handle_cancel_task` (`server.py` lines
499-505), wrapping manager errors the same way. -/
def handleCancelTask (s : ManagerState) (taskId : String) (ts : String) :
    Except String (ManagerState × List Event × Task) :=
  (cancelTask s taskId ts).mapError (fun e => "Invalid params: " ++ e)

/-- Embedding of `A2AServer._handle_set_push_notification` (`server.py`
lines 507-515). -/
def handleSetPushNotification (s : ManagerState) (cfg : TaskPushNotificationConfig) :
    Except String (ManagerState × TaskPushNotificationConfig) :=
  (setPushNotification s cfg.id cfg.pushNotification).mapError
    (fun e => "Invalid params: " ++ e)

/-- Embedding of `A2AServer._handle_get_push_notification` (`server.py`
lines 517-523). -/
def handleGetPushNotification (s : ManagerState) (taskId : String) :
    Except String TaskPushNotificationConfig :=
  (getPushNotification s taskId).mapError (fun e => "Invalid params: " ++ e)

/-- The Accept-header gate of `handle_jsonrpc` (`server.py` lines
392-400): a request is streaming when its method is `tasks/sendSubscribe`
or `tasks/resubscribe`, and such a request whose `accept` header
(`none` when absent) differs from `text/event-stream` is rejected. -/
def isStreamingMethod (method : String) : Bool :=
  method = "tasks/sendSubscribe" || method = "tasks/resubscribe"

/-- Embedding of the method-dispatch part of `A2AServer.handle_jsonrpc`
(`server.py` lines 371-449) for a request whose envelope already passed
JSON-RPC validation: the Accept-header gate for streaming methods, then
the per-method dispatch, with `ValueError` messages mapped to JSON-RPC
error codes by substring (`errorCodeForMessage`).  The streaming methods
return a `StreamingResponse` immediately; their SSE body (task creation
and event piping) runs lazily afterwards, so at dispatch time they
perform no manager call.  A params shape that does not match the method
is the pydantic validation failure, re-raised as an
`Invalid params` error. -/
def handleJsonrpc (proc : Option (TaskSendParams → Except String Task))
    (s : ManagerState) (accept : Option String) (method : String)
    (params : RpcParams) (ts : String) : RpcOutcome :=
  if isStreamingMethod method && accept ≠ some "text/event-stream" then
    { response := RpcResponse.error ErrorCode.CONTENT_TYPE_NOT_SUPPORTED
        "Streaming requests require Accept: text/event-stream header",
      state := s, calls := [] }
  else if method = "tasks/send" then
    match params with
    | RpcParams.send p =>
      let (s2, _, t) := createTask proc s p ts
      { response := RpcResponse.task t, state := s2, calls := [MgrCall.createTask p.id] }
    | _ => { response := RpcResponse.error ErrorCode.INVALID_PARAMS "Invalid params",
             state := s, calls := [] }
  else if method = "tasks/get" then
    match params with
    | RpcParams.query taskId hl =>
      match handleGetTask s taskId hl with
      | Except.ok t =>
        { response := RpcResponse.task t, state := s, calls := [MgrCall.getTask taskId] }
      | Except.error e =>
        { response := RpcResponse.error (errorCodeForMessage e) e, state := s,
          calls := [MgrCall.getTask taskId] }
    | _ => { response := RpcResponse.error ErrorCode.INVALID_PARAMS "Invalid params",
             state := s, calls := [] }
  else if method = "tasks/cancel" then
    match params with
    | RpcParams.taskId taskId =>
      match handleCancelTask s taskId ts with
      | Except.ok (s2, _, t) =>
        { response := RpcResponse.task t, state := s2, calls := [MgrCall.cancelTask taskId] }
      | Except.error e =>
        { response := RpcResponse.error (errorCodeForMessage e) e, state := s,
          calls := [MgrCall.cancelTask taskId] }
    | _ => { response := RpcResponse.error ErrorCode.INVALID_PARAMS "Invalid params",
             state := s, calls := [] }
  else if method = "tasks/pushNotification/set" then
    match params with
    | RpcParams.pushConfig cfg =>
      match handleSetPushNotification s cfg with
      | Except.ok (s2, c) =>
        { response := RpcResponse.pushConfig c, state := s2, calls := [MgrCall.setPush cfg.id] }
      | Except.error e =>
        { response := RpcResponse.error (errorCodeForMessage e) e, state := s,
          calls := [MgrCall.setPush cfg.id] }
    | _ => { response := RpcResponse.error ErrorCode.INVALID_PARAMS "Invalid params",
             state := s, calls := [] }
  else if method = "tasks/pushNotification/get" then
    match params with
    | RpcParams.taskId taskId =>
      match handleGetPushNotification s taskId with
      | Except.ok c =>
        { response := RpcResponse.pushConfig c, state := s, calls := [MgrCall.getPush taskId] }
      | Except.error e =>
        { response := RpcResponse.error (errorCodeForMessage e) e, state := s,
          calls := [MgrCall.getPush taskId] }
    | _ => { response := RpcResponse.error ErrorCode.INVALID_PARAMS "Invalid params",
             state := s, calls := [] }
  else if method = "tasks/sendSubscribe" then
    { response := RpcResponse.streaming, state := s, calls := [] }
  else if method = "tasks/resubscribe" then
    { response := RpcResponse.streaming, state := s, calls := [] }
  else
    { response := RpcResponse.error ErrorCode.METHOD_NOT_FOUND
        ("Method not found: " ++ method),
      state := s, calls := [] }

/-- Embedding of `BaseAgent._extract_message_text` (`base_agent.py`
lines 240-246): the text payloads of the message parts, joined by a
single space. -/
def extractMessageText (m : Message) : String :=
  String.intercalate " " (m.parts.filterMap Part.textOf)

/-- The fixed polling interval of the host agent's wait loop, in
seconds (`await asyncio.sleep(0.5)`, `host_agent.py` line 241). -/
def pollIntervalSeconds : ℚ := 1 / 2

/-- Embedding of the Python `message.lower()` call, at the character
level (ASCII case mapping, which covers every string the sources
compare against). -/
def strToLower (s : String) : String := String.mk (s.data.map Char.toLower)

/-- First pass of `HostAgent._extract_skill_info` (`host_agent.py` lines
196-199): scan the url-to-skill-ids registry in order and return the
first `(url, skillId)` whose skill id occurs inside the lowercased
message. -/
def findSkillMatch (msgLower : String) : List (String × List String) → Option (String × String)
  | [] => none
  | (url, ids) :: rest =>
    match ids.find? (fun skillId => strContains msgLower skillId) with
    | some skillId => some (url, skillId)
    | none => findSkillMatch msgLower rest

/-- Bucket pass of `HostAgent._extract_skill_info` (`host_agent.py`
lines 202-210): the first url one of whose skill ids contains `sub` as
a substring. -/
def findBucketMatch (sub : String) : List (String × List String) → Option String
  | [] => none
  | (url, ids) :: rest =>
    if ids.any (fun skillId => strContains skillId sub) then some url
    else findBucketMatch sub rest

/-- Embedding of `HostAgent._extract_skill_info` (`host_agent.py` lines
186-212): exact skill-id substring match against the lowercased message
first, then the "code"/"convert" bucket, then the
"data"/"migration"/"database" bucket. -/
def extractSkillInfo (agentSkills : List (String × List String)) (message : String) :
    Option (String × String) :=
  let msgLower := strToLower message
  match findSkillMatch msgLower agentSkills with
  | some r => some r
  | none =>
    match (if strContains msgLower "code" || strContains msgLower "convert" then
             findBucketMatch "code" agentSkills
           else none) with
    | some url => some (url, "code-conversion")
    | none =>
      match (if strContains msgLower "data" || strContains msgLower "migration"
                || strContains msgLower "database" then
               findBucketMatch "data" agentSkills
             else none) with
      | some url => some (url, "data-migration")
      | none => none

/-- The wait loop of `HostAgent._process_message` (`host_agent.py` lines
239-242): starting from the task returned by `send_task`, keep polling
`get_task` (one `polls` entry per poll, in order; an `Except.error`
entry is a raised `A2AClientError`) until the observed task is terminal.
`none` models the loop still running when the supplied poll sequence is
exhausted. -/
def pollUntilTerminal (t : Task) (polls : List (Except String Task)) :
    Option (Except String Task) :=
  if isFinalState t.status.state then some (Except.ok t)
  else
    match polls with
    | [] => none
    | Except.error e :: _ => some (Except.error e)
    | Except.ok t2 :: rest => pollUntilTerminal t2 rest

/-- Text payloads of all parts of all artifacts, in declaration order
(the nested loop of `host_agent.py` lines 249-253). -/
def artifactTexts (arts : List Artifact) : List String :=
  (arts.map (fun a => a.parts.filterMap Part.textOf)).flatten

/-- Response-text extraction from a terminal task, `host_agent.py` lines
244-257: for a COMPLETED task prefer the status message text, then the
artifact texts joined by a blank line, then a fixed fallback; for any
other terminal outcome a "Task failed" message. -/
def extractResponse (t : Task) : String :=
  if t.status.state = TaskState.COMPLETED then
    match t.status.message with
    | some m => extractMessageText m
    | none =>
      match t.artifacts with
      | some (a :: rest) => String.intercalate "\n\n" (artifactTexts (a :: rest))
      | _ => "Task completed successfully, but no response was provided."
  else
    "Task failed: " ++
      (match t.status.message with
       | some m => extractMessageText m
       | none => "Unknown error")

/-- The routed branch of `HostAgent._process_message` (`host_agent.py`
lines 230-260), with the remote interaction abstracted as data: `card`
is the `get_card` outcome, `send` the `send_task` outcome, `polls` the
successive `get_task` outcomes.  Every failure raised inside the `try`
block is caught and returned as the error string; `none` models only
the poll loop never observing a terminal task. -/
def routeToRemote (card : Except String Unit) (send : Except String Task)
    (polls : List (Except String Task)) : Option String :=
  match card with
  | Except.error e => some ("Error processing task with remote agent: " ++ e)
  | Except.ok _ =>
    match send with
    | Except.error e => some ("Error processing task with remote agent: " ++ e)
    | Except.ok t =>
      match pollUntilTerminal t polls with
      | none => none
      | some (Except.error e) => some ("Error processing task with remote agent: " ++ e)
      | some (Except.ok final) => some (extractResponse final)

/-- The static reply of `_process_message` when no remote agent is
connected (`host_agent.py` line 225). -/
def noRemoteAgentsMsg : String :=
  "No remote agents connected. Please connect to some agents first."

/-- The static capability-summary reply of `_process_message` when no
skill matches (`host_agent.py` lines 263-277). -/
def generalResponse (message : String) : String :=
  "As the DevGenius Host Agent, I can help route your request to specialized agents for:\n\n1. Code Conversion (AWS to GCP)\n2. Data Migration (DynamoDB to Firestore/Spanner, S3 to GCS, etc.)\n3. Schema Translation\n4. Architecture Design\n5. Security Validation\n\nYour request: \"" ++ message ++
  "\"\n\nTo help you better, please specify which type of task you\x27re looking to accomplish. For example:\n- \"Convert this AWS Lambda code to Google Cloud Function\"\n- \"Migrate my DynamoDB schema to Firestore\"\n- \"Design a GCP architecture equivalent to my AWS setup\"\n"

/-- Embedding of `HostAgent._process_message` (`host_agent.py` lines
214-278): the no-remotes guard, skill extraction, and either the routed
remote interaction or the general guidance reply. -/
def hostProcessMessage (remoteUrls : List String)
    (agentSkills : List (String × List String)) (message : String)
    (card : Except String Unit) (send : Except String Task)
    (polls : List (Except String Task)) : Option String :=
  if remoteUrls = [] then some noRemoteAgentsMsg
  else
    match extractSkillInfo agentSkills message with
    | some _ => routeToRemote card send polls
    | none => some (generalResponse message)

/-- One event yielded by the client SSE consumers `A2AClient.send_subscribe`
and `A2AClient.resubscribe` (`client.py`): the pydantic event constructed
from the parsed frame, tagged by which key discriminated it. -/
inductive SseYield where
  | statusEvent (fields : List (String × JVal)) : SseYield
  | artifactEvent (fields : List (String × JVal)) : SseYield

/-- Per-frame discrimination of the client SSE consumers (`client.py`
lines 230-233 and 288-291): a parsed JSON object with a `status` key
yields a status event, else one with an `artifact` key yields an
artifact event, else nothing is yielded for the frame. -/
def frameYields (fields : List (String × JVal)) : List SseYield :=
  if hasKey fields "status" then [SseYield.statusEvent fields]
  else if hasKey fields "artifact" then [SseYield.artifactEvent fields]
  else []

/-- Events yielded by the client stream for a sequence of parsed SSE
data frames, in arrival order. -/
def streamConsumerYields (frames : List (List (String × JVal))) : List SseYield :=
  (frames.map frameYields).flatten

/-- The JSON-RPC-shaped error frame the server emits on a mid-stream
processing error (`server.py` lines 541-547 and 568-574). -/
def serverStreamErrorFrame (msg : String) : List (String × JVal) :=
  [("error", JVal.obj
      [("code", JVal.num ErrorCode.INTERNAL_ERROR),
       ("message", JVal.str ("Streaming error: " ++ msg))])]

/-- Example fixture: a two-message conversation history. -/
def exC4hist : List Message :=
  [{ role := "user", parts := [Part.text "first"] },
   { role := "agent", parts := [Part.text "second"] }]

/-- Example fixture: a stored task carrying a two-message history. -/
def exC4task : Task :=
  { id := "t1",
    status := { state := TaskState.WORKING, timestamp := "ts0" },
    artifacts := some [],
    history := some exC4hist }

/-- Example fixture: a manager holding `exC4task`. -/
def exC4mgr : ManagerState :=
  { tasks := [("t1", exC4task)] }

/-- Example fixture: a stored task for the push-notification claim. -/
def exC7task : Task :=
  { id := "t1",
    status := { state := TaskState.WORKING, timestamp := "ts0" },
    artifacts := some [] }

/-- Example fixture: a manager supporting push notifications that holds
`exC7task` but never had a push configuration set for it. -/
def exC7mgr : ManagerState :=
  { tasks := [("t1", exC7task)], supportsPushNotifications := true }

/-- Example fixture: a task already in the terminal COMPLETED state with
an empty artifact list. -/
def exC1task : Task :=
  { id := "t1",
    status := { state := TaskState.COMPLETED, timestamp := "ts0" },
    artifacts := some [] }

/-- Example fixture: an artifact update arriving after completion. -/
def exC1artifact : Artifact :=
  { parts := [Part.text "late"] }

/-- Example fixture: a streaming-capable manager holding the completed
`exC1task` with an open (empty) subscriber-queue slot. -/
def exC1mgr : ManagerState :=
  { tasks := [("t1", exC1task)], taskStreams := [("t1", [])] }

/-- The CANCELED copy of a task written by `cancel_task` (`server.py`
lines 173-181). -/
def canceledVersion (t : Task) (ts : String) : Task :=
  { t with
      status :=
        { state := TaskState.CANCELED,
          message := some { role := "agent", parts := [Part.text "Task was canceled"] },
          timestamp := ts } }

/-- Example fixture: a task already COMPLETED, for the cancel claim. -/
def exC3task : Task :=
  { id := "t3",
    status := { state := TaskState.COMPLETED, timestamp := "ts0" },
    artifacts := some [] }

/-- Example fixture: a manager holding the completed `exC3task` and a
still-running task `t4`. -/
def exC3mgr : ManagerState :=
  { tasks :=
      [("t3", exC3task),
       ("t4", { id := "t4",
                status := { state := TaskState.WORKING, timestamp := "ts0" },
                artifacts := some [] })],
    taskStreams := [("t3", []), ("t4", [[]])] }

/-- Example fixture: parameters of a `tasks/send` call. -/
def exC2params : TaskSendParams :=
  { id := "t2", message := { role := "user", parts := [Part.text "hi"] } }

/-- Example fixture: a processing callback that always raises. -/
def exC2proc : TaskSendParams → Except String Task :=
  fun _ => Except.error "boom"

/-- Example fixture: a WORKING task with an empty artifact list. -/
def exC5task : Task :=
  { id := "t5",
    status := { state := TaskState.WORKING, timestamp := "ts0" },
    artifacts := some [] }

/-- Example fixture: a streaming manager holding `exC5task` with one
subscriber queue. -/
def exC5mgr : ManagerState :=
  { tasks := [("t5", exC5task)], taskStreams := [("t5", [[]])] }

/-- Example fixture: a first artifact update with `append=false`. -/
def exC5art1 : Artifact :=
  { parts := [Part.text "p1"], index := 0, append := some false }

/-- Example fixture: a second artifact update at the same index with
`append=true`. -/
def exC5art2 : Artifact :=
  { parts := [Part.text "p2"], index := 0, append := some true }

/-- Example fixture: a WORKING task holding one artifact, to be
replayed on subscribe. -/
def exC6task : Task :=
  { id := "t6",
    status := { state := TaskState.WORKING, timestamp := "ts0" },
    artifacts := some [{ parts := [Part.text "a0"] }] }

/-- Example fixture: a streaming manager holding `exC6task`. -/
def exC6mgr : ManagerState :=
  { tasks := [("t6", exC6task)], taskStreams := [("t6", [[]])] }

/-- Example fixture: events later published to the `exC6task`
subscriber queue — one non-final update, one final update, then one
more event that the stream must not deliver. -/
def exC6published : List Event :=
  [Event.status
     { id := "t6", status := { state := TaskState.WORKING, timestamp := "ts1" }, final := false },
   Event.status
     { id := "t6", status := { state := TaskState.COMPLETED, timestamp := "ts2" }, final := true },
   Event.artifact
     { id := "t6", artifact := { parts := [Part.text "late"] }, final := false }]

/-- Example fixture: the skill registry of a host connected to one
remote advertising the skill `aws-to-gcp`. -/
def exC9skills : List (String × List String) := [("remote-a", ["aws-to-gcp"])]

/-- Example fixture: a routed message mentioning the skill id. -/
def exC9msg : String := "please aws-to-gcp this snippet"

/-- Example fixture: the task returned by `send_task`, still WORKING. -/
def exC9task0 : Task :=
  { id := "t9", status := { state := TaskState.WORKING, timestamp := "ts0" } }

/-- Example fixture: the terminal snapshot observed by the poll loop. -/
def exC9taskF : Task :=
  { id := "t9",
    status := { state := TaskState.COMPLETED,
                message := some { role := "agent", parts := [Part.text "done"] },
                timestamp := "ts1" } }

theorem lookupKey_setKey_self {β : Type} (m : List (String × β)) (k : String) (v : β) :
    lookupKey k (setKey m k v) = some v := by
  induction m with
  | nil => simp [setKey, lookupKey]
  | cons p rest ih =>
    obtain ⟨k2, v2⟩ := p
    by_cases h : k2 = k
    · simp [setKey, h, lookupKey]
    · simp [setKey, h, lookupKey, ih]

theorem hasKey_setKey_self {β : Type} (m : List (String × β)) (k : String) (v : β) :
    hasKey (setKey m k v) k = true := by
  induction m with
  | nil => simp [setKey, hasKey]
  | cons p rest ih =>
    obtain ⟨k2, v2⟩ := p
    by_cases h : k2 = k
    · simp [setKey, h, hasKey]
    · simp [setKey, h, hasKey] at ih ⊢
      exact ih

theorem charsStartWith_append (pat rest : List Char) :
    charsStartWith pat (pat ++ rest) = true := by
  induction pat with
  | nil => simp [charsStartWith]
  | cons c cs ih => simp [charsStartWith, ih]

theorem charsContain_nil_pat (l : List Char) : charsContain [] l = true := by
  cases l <;> simp [charsContain, charsStartWith]

theorem charsContain_append (pre pat rest : List Char) :
    charsContain pat (pre ++ (pat ++ rest)) = true := by
  induction pre with
  | nil =>
    cases pat with
    | nil => simpa using charsContain_nil_pat rest
    | cons c cs =>
      have h := charsStartWith_append cs rest
      simp [charsContain, charsStartWith, h]
  | cons b bs ih => simp [charsContain, ih]

theorem strContains_of_split (pre pat suf : String) :
    strContains (pre ++ (pat ++ suf)) pat = true := by
  have h3 : (pre ++ (pat ++ suf)).toList = pre.toList ++ (pat.toList ++ suf.toList) := by
    show (pre ++ (pat ++ suf)).data = pre.data ++ (pat.data ++ suf.data)
    rw [String.data_append, String.data_append]
  unfold strContains
  rw [h3]
  exact charsContain_append pre.toList pat.toList suf.toList

theorem takeUntilFinal_prefix (l : List Event) : takeUntilFinal l <+: l := by
  induction l with
  | nil => simp [takeUntilFinal]
  | cons e rest ih =>
    cases h : e.final with
    | true =>
      simp only [takeUntilFinal, h, if_pos rfl]
      exact ⟨rest, rfl⟩
    | false =>
      rw [show takeUntilFinal (e :: rest) = e :: takeUntilFinal rest from by
            simp [takeUntilFinal, h]]
      exact (List.cons_prefix_cons).2 ⟨rfl, ih⟩

theorem takeUntilFinal_dropLast (l : List Event) :
    ∀ e ∈ (takeUntilFinal l).dropLast, e.final = false := by
  induction l with
  | nil => simp [takeUntilFinal]
  | cons a rest ih =>
    cases h : a.final with
    | true => simp [takeUntilFinal, h]
    | false =>
      intro e he
      cases htr : takeUntilFinal rest with
      | nil => simp [takeUntilFinal, h, htr] at he
      | cons b bs =>
        rw [show takeUntilFinal (a :: rest) = a :: takeUntilFinal rest from by
              simp [takeUntilFinal, h],
            htr, List.dropLast_cons₂] at he
        rcases List.mem_cons.1 he with rfl | he2
        · exact h
        · exact ih e (by rw [htr]; exact he2)

theorem takeUntilFinal_of_all_not_final (l : List Event)
    (h : ∀ e ∈ l, e.final = false) : takeUntilFinal l = l := by
  induction l with
  | nil => simp [takeUntilFinal]
  | cons a rest ih =>
    have ha : a.final = false := h a (List.mem_cons_self a rest)
    simp [takeUntilFinal, ha]
    exact ih (fun e he => h e (List.mem_cons_of_mem a he))

theorem takeUntilFinal_first_final (pre : List Event) (e : Event) (post : List Event)
    (hpre : ∀ x ∈ pre, x.final = false) (he : e.final = true) :
    takeUntilFinal (pre ++ e :: post) = pre ++ [e] := by
  induction pre with
  | nil => simp [takeUntilFinal, he]
  | cons a rest ih =>
    have ha : a.final = false := hpre a (List.mem_cons_self a rest)
    simp [takeUntilFinal, ha]
    exact ih (fun x hx => hpre x (List.mem_cons_of_mem a hx))

theorem sendStatusUpdate_tasks (s : ManagerState) (t : Task) :
    (sendStatusUpdate s t).1.tasks = s.tasks := by
  unfold sendStatusUpdate
  split <;> rfl

theorem sendStatusUpdate_supportsStreaming (s : ManagerState) (t : Task) :
    (sendStatusUpdate s t).1.supportsStreaming = s.supportsStreaming := by
  unfold sendStatusUpdate
  split <;> rfl

theorem sendStatusUpdate_guard_true (s : ManagerState) (t : Task)
    (h1 : s.supportsStreaming = true) (h2 : hasKey s.taskStreams t.id = true) :
    (sendStatusUpdate s t).2 = [statusEventOf t] := by
  unfold sendStatusUpdate
  simp [h1, h2]

theorem sendStatusUpdate_streaming_off (s : ManagerState) (t : Task)
    (h1 : s.supportsStreaming = false) :
    sendStatusUpdate s t = (s, []) := by
  unfold sendStatusUpdate
  simp [h1]

theorem hasKey_sendStatusUpdate (s : ManagerState) (t : Task)
    (h : hasKey s.taskStreams t.id = true) :
    hasKey (sendStatusUpdate s t).1.taskStreams t.id = true := by
  unfold sendStatusUpdate
  split
  · exact h
  · simpa using hasKey_setKey_self s.taskStreams t.id _

/-- C10: for every SSE data frame received by the protocol client's
`send_subscribe` or `resubscribe` stream whose parsed JSON object has
neither a `status` key nor an `artifact` key — in particular the
JSON-RPC-shaped error frame the server emits on a mid-stream processing
error — the client yields nothing for that frame and continues with the
remaining frames, so such frames are invisible to the stream's
consumer. -/
theorem client_skips_untagged_frames (fields : List (String × JVal))
    (hs : hasKey fields "status" = false) (ha : hasKey fields "artifact" = false) :
    frameYields fields = []
    ∧ (∀ pre post, streamConsumerYields (pre ++ fields :: post)
        = streamConsumerYields pre ++ streamConsumerYields post)
    ∧ (∀ msg, frameYields (serverStreamErrorFrame msg) = []) := by
  have h0 : frameYields fields = [] := by simp [frameYields, hs, ha]
  refine ⟨h0, ?_, ?_⟩
  · intro pre post
    simp [streamConsumerYields, h0]
  · intro msg
    rfl

/-- Witness for C10: the server's error frame carries only an `error`
key, and a stream consisting of a status frame, the error frame and an
artifact frame yields only the status and artifact events. -/
theorem client_skips_untagged_frames_witness :
    hasKey (serverStreamErrorFrame "boom") "status" = false
    ∧ hasKey (serverStreamErrorFrame "boom") "artifact" = false
    ∧ frameYields (serverStreamErrorFrame "boom") = []
    ∧ streamConsumerYields
        [[("status", JVal.null)], serverStreamErrorFrame "boom", [("artifact", JVal.null)]]
        = [SseYield.statusEvent [("status", JVal.null)],
           SseYield.artifactEvent [("artifact", JVal.null)]] := by
  refine ⟨by decide, by decide,
    (client_skips_untagged_frames (serverStreamErrorFrame "boom") (by decide) (by decide)).1,
    rfl⟩

/-- C8: a JSON-RPC request for `tasks/sendSubscribe` or
`tasks/resubscribe` whose Accept header is not `text/event-stream` (in
particular, one that does not declare acceptance of the event-stream
content type) is answered with JSON-RPC error code `-32005` and performs
no task-manager work: the manager state is unchanged and no manager
operation is invoked. -/
theorem streaming_requires_event_stream_accept
    (proc : Option (TaskSendParams → Except String Task)) (s : ManagerState)
    (accept : Option String) (method : String) (params : RpcParams) (ts : String)
    (hm : isStreamingMethod method = true)
    (hacc : accept ≠ some "text/event-stream") :
    handleJsonrpc proc s accept method params ts =
      { response := RpcResponse.error (-32005)
          "Streaming requests require Accept: text/event-stream header",
        state := s, calls := [] } := by
  unfold handleJsonrpc
  simp [hm, hacc]
  rfl

/-- Witness for C8: a `tasks/sendSubscribe` request with no Accept
header at all is rejected with `-32005` against an empty manager. -/
theorem streaming_requires_event_stream_accept_witness :
    isStreamingMethod "tasks/sendSubscribe" = true
    ∧ (none : Option String) ≠ some "text/event-stream"
    ∧ handleJsonrpc none {} none "tasks/sendSubscribe" (RpcParams.taskId "t1") "ts"
        = { response := RpcResponse.error (-32005)
              "Streaming requests require Accept: text/event-stream header",
            state := {}, calls := [] } :=
  ⟨by decide, by decide,
    streaming_requires_event_stream_accept none {} none "tasks/sendSubscribe"
      (RpcParams.taskId "t1") "ts" (by decide) (by decide)⟩

/-- C4 (code bug witnessed): `get_task` accepts `history_length` but
never truncates — the stored task is returned unchanged for every
requested length, contradicting the specified most-recent-N truncation
(the source carries a TODO in `get_task`, `server.py` line 158). -/
theorem getTask_ignores_historyLength (s : ManagerState) (taskId : String)
    (t : Task) (hl : Option Int) (h : lookupKey taskId s.tasks = some t) :
    getTask s taskId hl = Except.ok t := by
  unfold getTask
  rw [h]

/-- Witness for C4, at the failing input: a stored task with a
two-message history queried with `historyLength = 1` comes back with
its full two-message history instead of only the most recent entry. -/
theorem getTask_ignores_historyLength_witness :
    lookupKey "t1" exC4mgr.tasks = some exC4task
    ∧ getTask exC4mgr "t1" (some 1) = Except.ok exC4task
    ∧ (exC4task.history.getD []).length = 2 := by
  refine ⟨rfl, getTask_ignores_historyLength exC4mgr "t1" exC4task (some 1) rfl, rfl⟩

/-- Counterexample to C7: on a manager with push-notification support, a
`tasks/pushNotification/get` for a known task that never had a
configuration set is answered with JSON-RPC code `-32602` (invalid
params), not the claimed task-not-found code `-32001`: the raised
message `No push notification configuration for task: ...` matches none
of the substring patterns of the server's error-code mapping. -/
theorem getPushNotification_unset_config_cx :
    (handleJsonrpc none exC7mgr none "tasks/pushNotification/get"
        (RpcParams.taskId "t1") "ts").response
      = RpcResponse.error (-32602)
          ("Invalid params: " ++ ("No push notification configuration for task: " ++ "t1"))
    ∧ ((-32602 : Int) ≠ -32001) :=
  ⟨rfl, by decide⟩

/-- C7 amended: a `getPushNotification` on a push-capable manager for a
known task with no stored configuration fails with the
`No push notification configuration` error, which the protocol server
maps to the generic invalid-params JSON-RPC code `-32602` (the
non-containment hypotheses exclude task ids that would accidentally
trigger an earlier substring pattern of the mapping). -/
theorem getPushNotification_unset_config
    (proc : Option (TaskSendParams → Except String Task)) (s : ManagerState)
    (accept : Option String) (taskId ts : String)
    (h1 : s.supportsPushNotifications = true)
    (h2 : hasKey s.tasks taskId = true)
    (h3 : lookupKey taskId s.pushNotifications = none)
    (h4 : strContains ("Invalid params: " ++ ("No push notification configuration for task: " ++ taskId))
            "Task not found" = false)
    (h5 : strContains ("Invalid params: " ++ ("No push notification configuration for task: " ++ taskId))
            "Task is already in a final state" = false)
    (h6 : strContains ("Invalid params: " ++ ("No push notification configuration for task: " ++ taskId))
            "Push notifications are not supported" = false)
    (h7 : strContains ("Invalid params: " ++ ("No push notification configuration for task: " ++ taskId))
            "Streaming is not supported" = false) :
    (handleJsonrpc proc s accept "tasks/pushNotification/get"
        (RpcParams.taskId taskId) ts).response
      = RpcResponse.error (-32602)
          ("Invalid params: " ++ ("No push notification configuration for task: " ++ taskId)) := by
  have hmsg : handleGetPushNotification s taskId =
      Except.error ("Invalid params: " ++ ("No push notification configuration for task: " ++ taskId)) := by
    unfold handleGetPushNotification getPushNotification
    simp [h1, h2, h3, Except.mapError]
  unfold handleJsonrpc
  simp [isStreamingMethod, hmsg, errorCodeForMessage, h4, h5, h6, h7, ErrorCode.INVALID_PARAMS]

/-- Witness for the amended C7 at the concrete fixture. -/
theorem getPushNotification_unset_config_witness :
    exC7mgr.supportsPushNotifications = true
    ∧ hasKey exC7mgr.tasks "t1" = true
    ∧ lookupKey "t1" exC7mgr.pushNotifications = none
    ∧ (handleJsonrpc none exC7mgr (some "application/json") "tasks/pushNotification/get"
        (RpcParams.taskId "t1") "ts").response
      = RpcResponse.error (-32602)
          ("Invalid params: " ++ ("No push notification configuration for task: " ++ "t1")) :=
  ⟨rfl, by decide, rfl,
    getPushNotification_unset_config none exC7mgr (some "application/json") "t1" "ts"
      rfl (by decide) rfl (by decide) (by decide) (by decide) (by decide)⟩

/-- Counterexample to C1: a task already in the terminal COMPLETED state
still has its stored artifact list mutated by `send_artifact_update`,
which performs no terminal-state check — so terminal states do not
freeze the artifact list. -/
theorem terminal_task_artifact_mutation_cx :
    isFinalState exC1task.status.state = true
    ∧ lookupKey "t1" exC1mgr.tasks = some exC1task
    ∧ lookupKey "t1" (sendArtifactUpdate exC1mgr "t1" exC1artifact false).1.tasks
        = some { exC1task with artifacts := some [exC1artifact] }
    ∧ some [exC1artifact] ≠ exC1task.artifacts := by
  refine ⟨rfl, rfl, rfl, by simp [exC1task]⟩

/-- C1 amended: of the manager's operations only `cancel_task` enforces
terminality — once a task is COMPLETED, FAILED or CANCELED, a cancel
fails with the not-cancelable error (and changes nothing), while
`send_artifact_update` still mutates the terminal task's artifact list
and `create_task` overwrites the stored task unconditionally. -/
theorem cancelTask_rejects_terminal (s : ManagerState) (taskId ts : String) (t : Task)
    (h : lookupKey taskId s.tasks = some t)
    (hfin : isFinalState t.status.state = true) :
    cancelTask s taskId ts =
      Except.error "Task is already in a final state and cannot be canceled" := by
  unfold cancelTask
  rw [h]
  simp [hfin]

/-- Witness for the amended C1 at the concrete fixture. -/
theorem cancelTask_rejects_terminal_witness :
    lookupKey "t1" exC1mgr.tasks = some exC1task
    ∧ isFinalState exC1task.status.state = true
    ∧ cancelTask exC1mgr "t1" "ts1" =
        Except.error "Task is already in a final state and cannot be canceled" :=
  ⟨rfl, rfl, cancelTask_rejects_terminal exC1mgr "t1" "ts1" exC1task rfl rfl⟩

theorem handleJsonrpc_cancel (proc : Option (TaskSendParams → Except String Task))
    (s : ManagerState) (accept : Option String) (taskId ts : String) :
    handleJsonrpc proc s accept "tasks/cancel" (RpcParams.taskId taskId) ts =
      match handleCancelTask s taskId ts with
      | Except.ok (s2, _, t) =>
        { response := RpcResponse.task t, state := s2, calls := [MgrCall.cancelTask taskId] }
      | Except.error e =>
        { response := RpcResponse.error (errorCodeForMessage e) e, state := s,
          calls := [MgrCall.cancelTask taskId] } := by
  rfl

theorem errorCode_of_task_not_found (taskId : String) :
    errorCodeForMessage ("Invalid params: " ++ ("Task not found: " ++ taskId)) = -32001 := by
  have e1 : ("Task not found: " : String) = "Task not found" ++ ": " := by decide
  have e2 : "Invalid params: " ++ ("Task not found: " ++ taskId)
      = "Invalid params: " ++ ("Task not found" ++ (": " ++ taskId)) := by
    rw [e1, String.append_assoc]
  rw [e2]
  unfold errorCodeForMessage
  rw [strContains_of_split]
  simp [ErrorCode.TASK_NOT_FOUND]

/-- C3: a `tasks/cancel` request for an unknown task id is answered with
the task-not-found JSON-RPC code `-32001`; one for a task already in a
terminal state (COMPLETED, FAILED or CANCELED) is answered with the
not-cancelable code `-32002`, leaving the manager state unchanged in
both cases; otherwise the task transitions to CANCELED with the
synthetic agent message `Task was canceled`, the canceled task is both
stored and returned, and a final status event is broadcast to the task's
subscriber queues. -/
theorem cancel_semantics (proc : Option (TaskSendParams → Except String Task))
    (s : ManagerState) (accept : Option String) (taskId ts : String) :
    (lookupKey taskId s.tasks = none →
      handleJsonrpc proc s accept "tasks/cancel" (RpcParams.taskId taskId) ts =
        { response := RpcResponse.error (-32001)
            ("Invalid params: " ++ ("Task not found: " ++ taskId)),
          state := s, calls := [MgrCall.cancelTask taskId] })
    ∧ (∀ t, lookupKey taskId s.tasks = some t → isFinalState t.status.state = true →
      handleJsonrpc proc s accept "tasks/cancel" (RpcParams.taskId taskId) ts =
        { response := RpcResponse.error (-32002)
            ("Invalid params: " ++ "Task is already in a final state and cannot be canceled"),
          state := s, calls := [MgrCall.cancelTask taskId] })
    ∧ (∀ t, lookupKey taskId s.tasks = some t → isFinalState t.status.state = false →
      ∃ t2 s2 evs,
        cancelTask s taskId ts = Except.ok (s2, evs, t2)
        ∧ (handleJsonrpc proc s accept "tasks/cancel" (RpcParams.taskId taskId) ts).response
            = RpcResponse.task t2
        ∧ t2.status.state = TaskState.CANCELED
        ∧ t2.status.message = some { role := "agent", parts := [Part.text "Task was canceled"] }
        ∧ t2.status.timestamp = ts
        ∧ lookupKey taskId s2.tasks = some t2
        ∧ (s.supportsStreaming = true → hasKey s.taskStreams t.id = true →
            evs = [statusEventOf t2] ∧ (statusEventOf t2).final = true)) := by
  refine ⟨?_, ?_, ?_⟩
  · intro hnone
    have hc : handleCancelTask s taskId ts =
        Except.error ("Invalid params: " ++ ("Task not found: " ++ taskId)) := by
      unfold handleCancelTask cancelTask
      rw [hnone]
      rfl
    rw [handleJsonrpc_cancel, hc]
    simp [errorCode_of_task_not_found]
  · intro t ht hfin
    have hc : handleCancelTask s taskId ts =
        Except.error ("Invalid params: " ++ "Task is already in a final state and cannot be canceled") := by
      unfold handleCancelTask cancelTask
      rw [ht]
      simp [hfin, Except.mapError]
    rw [handleJsonrpc_cancel, hc]
    simp
    decide
  · intro t ht hnf
    have hc : cancelTask s taskId ts =
        Except.ok
          ((sendStatusUpdate
              { s with tasks := setKey s.tasks taskId (canceledVersion t ts) }
              (canceledVersion t ts)).1,
           (sendStatusUpdate
              { s with tasks := setKey s.tasks taskId (canceledVersion t ts) }
              (canceledVersion t ts)).2,
           canceledVersion t ts) := by
      unfold cancelTask canceledVersion
      rw [ht]
      simp [hnf]
    refine ⟨canceledVersion t ts,
      (sendStatusUpdate
        { s with tasks := setKey s.tasks taskId (canceledVersion t ts) }
        (canceledVersion t ts)).1,
      (sendStatusUpdate
        { s with tasks := setKey s.tasks taskId (canceledVersion t ts) }
        (canceledVersion t ts)).2,
      hc, ?_, rfl, rfl, rfl, ?_, ?_⟩
    · rw [handleJsonrpc_cancel]
      unfold handleCancelTask
      rw [hc]
      rfl
    · rw [sendStatusUpdate_tasks]
      exact lookupKey_setKey_self s.tasks taskId _
    · intro hss hkey
      exact ⟨sendStatusUpdate_guard_true _ _ hss hkey, rfl⟩

/-- Witness for C3 at a concrete fixture: canceling the COMPLETED task
`t3` is answered with code `-32002` and the state is unchanged. -/
theorem cancel_semantics_witness :
    lookupKey "t3" exC3mgr.tasks = some exC3task
    ∧ isFinalState exC3task.status.state = true
    ∧ handleJsonrpc none exC3mgr (some "application/json") "tasks/cancel"
        (RpcParams.taskId "t3") "ts" =
      { response := RpcResponse.error (-32002)
          ("Invalid params: " ++ "Task is already in a final state and cannot be canceled"),
        state := exC3mgr, calls := [MgrCall.cancelTask "t3"] } :=
  ⟨rfl, rfl,
    (cancel_semantics none exC3mgr (some "application/json") "t3" "ts").2.1 exC3task rfl rfl⟩

/-- C2: when the registered processing callback fails with any error,
`create_task` stores the task in the FAILED state with the agent-authored
message `Task processing failed: <error>`, the returned task is exactly
the stored one, the failure status event is broadcast (when the manager
supports streaming, which is when subscriber queues exist at all), and
no exception escapes: `createTask` is a total function returning the
stored task. -/
theorem createTask_processor_failure
    (f : TaskSendParams → Except String Task) (s : ManagerState)
    (p : TaskSendParams) (ts e : String) (hf : f p = Except.error e) :
    ((createTask (some f) s p ts).2.2).status.state = TaskState.FAILED
    ∧ ((createTask (some f) s p ts).2.2).status.message
        = some { role := "agent", parts := [Part.text ("Task processing failed: " ++ e)] }
    ∧ lookupKey p.id (createTask (some f) s p ts).1.tasks
        = some ((createTask (some f) s p ts).2.2)
    ∧ (s.supportsStreaming = true →
        statusEventOf ((createTask (some f) s p ts).2.2) ∈ (createTask (some f) s p ts).2.1
        ∧ (statusEventOf ((createTask (some f) s p ts).2.2)).final = true) := by
  rcases hpn : p.pushNotification with _ | cfg <;>
    cases hsp : s.supportsPushNotifications <;>
    cases hss : s.supportsStreaming <;>
    simp [createTask, sendStatusUpdate, statusEventOf, hasKey_setKey_self,
      lookupKey_setKey_self, isFinalState, Event.final, hf, hpn, hsp, hss]

/-- Witness for C2: a callback that raises `boom` yields a stored and
returned FAILED task with the agent-authored error text. -/
theorem createTask_processor_failure_witness :
    exC2proc exC2params = Except.error "boom"
    ∧ ((createTask (some exC2proc) {} exC2params "ts").2.2).status.state = TaskState.FAILED
    ∧ ((createTask (some exC2proc) {} exC2params "ts").2.2).status.message
        = some { role := "agent", parts := [Part.text ("Task processing failed: " ++ "boom")] }
    ∧ lookupKey "t2" (createTask (some exC2proc) {} exC2params "ts").1.tasks
        = some ((createTask (some exC2proc) {} exC2params "ts").2.2) :=
  ⟨rfl,
   (createTask_processor_failure exC2proc {} exC2params "ts" "boom" rfl).1,
   (createTask_processor_failure exC2proc {} exC2params "ts" "boom" rfl).2.1,
   (createTask_processor_failure exC2proc {} exC2params "ts" "boom" rfl).2.2.1⟩

theorem updateArtifacts_mem_index (arts : List Artifact) (a : Artifact) :
    ∀ x ∈ updateArtifacts arts a, (∃ y ∈ arts, y.index = x.index) ∨ x.index = a.index := by
  induction arts with
  | nil =>
    intro x hx
    rw [show updateArtifacts [] a = [a] from rfl] at hx
    rcases List.mem_singleton.1 hx with rfl
    exact Or.inr rfl
  | cons e rest ih =>
    intro x hx
    by_cases he : e.index = a.index
    · by_cases ha : a.append = some true
      · rw [show updateArtifacts (e :: rest) a = { e with parts := e.parts ++ a.parts } :: rest
            from by simp [updateArtifacts, he, ha]] at hx
        rcases List.mem_cons.1 hx with rfl | hx2
        · exact Or.inl ⟨e, List.mem_cons_self e rest, rfl⟩
        · exact Or.inl ⟨x, List.mem_cons_of_mem e hx2, rfl⟩
      · rw [show updateArtifacts (e :: rest) a = a :: rest
            from by simp [updateArtifacts, he, ha]] at hx
        rcases List.mem_cons.1 hx with rfl | hx2
        · exact Or.inr rfl
        · exact Or.inl ⟨x, List.mem_cons_of_mem e hx2, rfl⟩
    · rw [show updateArtifacts (e :: rest) a = e :: updateArtifacts rest a
          from by simp [updateArtifacts, he]] at hx
      rcases List.mem_cons.1 hx with rfl | hx2
      · exact Or.inl ⟨x, List.mem_cons_self x rest, rfl⟩
      · rcases ih x hx2 with ⟨y, hy, hyx⟩ | h
        · exact Or.inl ⟨y, List.mem_cons_of_mem e hy, hyx⟩
        · exact Or.inr h

/-- C5: an artifact update at an index already present either replaces
the existing artifact (when `append` is false or unset) or extends its
part list (when `append=true`); index uniqueness of the stored artifact
list is preserved by every update; and after an `append=false` update
followed by an `append=true` update at the same index the task stores
exactly one artifact at that index whose parts are the first update's
parts followed by the second update's parts. -/
theorem artifact_merge_semantics :
    (∀ (pre : List Artifact) (old a : Artifact) (rest : List Artifact),
      (∀ x ∈ pre, x.index ≠ a.index) → old.index = a.index →
      updateArtifacts (pre ++ old :: rest) a =
        pre ++ (if a.append = some true
                then { old with parts := old.parts ++ a.parts }
                else a) :: rest)
    ∧ (∀ (arts : List Artifact) (a : Artifact),
        arts.Pairwise (fun x y => x.index ≠ y.index) →
        (updateArtifacts arts a).Pairwise (fun x y => x.index ≠ y.index))
    ∧ (∀ (s : ManagerState) (taskId : String) (t : Task) (a1 a2 : Artifact),
        s.supportsStreaming = true → hasKey s.taskStreams taskId = true →
        lookupKey taskId s.tasks = some t → t.artifacts = some [] →
        a1.append = some false → a2.append = some true → a1.index = a2.index →
        lookupKey taskId
            (sendArtifactUpdate (sendArtifactUpdate s taskId a1 false).1 taskId a2 false).1.tasks
          = some { t with artifacts := some [{ a1 with parts := a1.parts ++ a2.parts }] }) := by
  refine ⟨?_, ?_, ?_⟩
  · intro pre old a rest hpre hold
    induction pre with
    | nil => simp [updateArtifacts, hold]
    | cons x pre2 ih =>
      have hx : ¬ x.index = a.index := hpre x (List.mem_cons_self x pre2)
      simp only [List.cons_append, updateArtifacts, if_neg hx, List.append_eq]
      rw [ih (fun y hy => hpre y (List.mem_cons_of_mem x hy))]
  · intro arts a
    induction arts with
    | nil =>
      intro _
      rw [show updateArtifacts [] a = [a] from rfl]
      exact List.pairwise_singleton _ a
    | cons e rest ih =>
      intro hp
      rw [List.pairwise_cons] at hp
      by_cases he : e.index = a.index
      · by_cases ha : a.append = some true
        · rw [show updateArtifacts (e :: rest) a = { e with parts := e.parts ++ a.parts } :: rest
              from by simp [updateArtifacts, he, ha]]
          exact List.pairwise_cons.2 ⟨fun y hy => hp.1 y hy, hp.2⟩
        · rw [show updateArtifacts (e :: rest) a = a :: rest
              from by simp [updateArtifacts, he, ha]]
          refine List.pairwise_cons.2 ⟨fun y hy => ?_, hp.2⟩
          rw [← he]
          exact hp.1 y hy
      · rw [show updateArtifacts (e :: rest) a = e :: updateArtifacts rest a
            from by simp [updateArtifacts, he]]
        refine List.pairwise_cons.2 ⟨fun y hy => ?_, ih hp.2⟩
        rcases updateArtifacts_mem_index rest a y hy with ⟨z, hz, hzy⟩ | h
        · rw [← hzy]
          exact hp.1 z hz
        · rw [h]
          exact he
  · intro s taskId t a1 a2 hss hkey ht harts hap1 hap2 hidx
    have h1 : sendArtifactUpdate s taskId a1 false =
        ({ s with
             tasks := setKey s.tasks taskId { t with artifacts := some [a1] },
             taskStreams := setKey s.taskStreams taskId
               (((lookupKey taskId s.taskStreams).getD []).map
                 (fun q => q ++ [Event.artifact { id := taskId, artifact := a1, final := false }])) },
         [Event.artifact { id := taskId, artifact := a1, final := false }]) := by
      unfold sendArtifactUpdate
      simp [hss, hkey, ht, harts, updateArtifacts]
    rw [h1]
    unfold sendArtifactUpdate
    simp [hss, hasKey_setKey_self, lookupKey_setKey_self, updateArtifacts, hidx, hap2]

/-- Witness for C5 at the concrete fixture: two updates at index 0 — the
first with `append=false`, the second with `append=true` — leave exactly
one stored artifact whose parts are `p1` then `p2`. -/
theorem artifact_merge_semantics_witness :
    lookupKey "t5" exC5mgr.tasks = some exC5task
    ∧ exC5art1.append = some false ∧ exC5art2.append = some true
    ∧ exC5art1.index = exC5art2.index
    ∧ lookupKey "t5"
        (sendArtifactUpdate (sendArtifactUpdate exC5mgr "t5" exC5art1 false).1 "t5" exC5art2 false).1.tasks
      = some { exC5task with
                 artifacts := some [{ exC5art1 with parts := exC5art1.parts ++ exC5art2.parts }] } :=
  ⟨rfl, rfl, rfl, rfl,
    artifact_merge_semantics.2.2 exC5mgr "t5" exC5task exC5art1 exC5art2
      rfl (by decide) rfl rfl rfl rfl rfl⟩

/-- C6: subscribing to a known task on a streaming manager never fails:
the yielded sequence starts with one synthetic status event whose final
flag is true exactly when the task state is terminal, continues with one
non-final artifact event per stored artifact in stored order, and then
— unless the task was already terminal — relays the published events in
publication order up to and including the first final event
(`takeUntilFinal`), which delivers every published event when none is
final (the idle-timeout ending) and stops exactly at the first final
event otherwise; the idle timeout constant is five minutes. -/
theorem subscribe_stream_semantics (s : ManagerState) (taskId : String) (t : Task)
    (published : List Event)
    (hs : s.supportsStreaming = true) (ht : lookupKey taskId s.tasks = some t) :
    streamYields s taskId published =
      Except.ok (statusEventOf t
        :: ((t.artifacts.getD []).map
              (fun a => Event.artifact { id := t.id, artifact := a, final := false })
            ++ (if isFinalState t.status.state then [] else takeUntilFinal published)))
    ∧ (statusEventOf t).final = isFinalState t.status.state
    ∧ (∀ a : Artifact,
        (Event.artifact { id := t.id, artifact := a, final := false } : Event).final = false)
    ∧ takeUntilFinal published <+: published
    ∧ (∀ ev ∈ (takeUntilFinal published).dropLast, ev.final = false)
    ∧ ((∀ ev ∈ published, ev.final = false) → takeUntilFinal published = published)
    ∧ (∀ pre ev post, published = pre ++ ev :: post → (∀ x ∈ pre, x.final = false) →
        ev.final = true → takeUntilFinal published = pre ++ [ev])
    ∧ streamIdleTimeoutSeconds = 5 * 60 := by
  refine ⟨?_, rfl, fun a => rfl, takeUntilFinal_prefix published,
    takeUntilFinal_dropLast published, takeUntilFinal_of_all_not_final published, ?_, rfl⟩
  · unfold streamYields
    by_cases hterm : isFinalState t.status.state <;> simp [hs, ht, hterm]
  · intro pre ev post hp hpre hev
    rw [hp]
    exact takeUntilFinal_first_final pre ev post hpre hev

/-- Witness for C6 at the concrete fixture: the WORKING task with one
stored artifact yields its synthetic status event, the artifact replay,
and then the published events up to the final one — the event published
after the final status update is not delivered. -/
theorem subscribe_stream_semantics_witness :
    exC6mgr.supportsStreaming = true
    ∧ lookupKey "t6" exC6mgr.tasks = some exC6task
    ∧ streamYields exC6mgr "t6" exC6published =
        Except.ok (statusEventOf exC6task
          :: ((exC6task.artifacts.getD []).map
                (fun a => Event.artifact { id := exC6task.id, artifact := a, final := false })
              ++ (if isFinalState exC6task.status.state then []
                  else takeUntilFinal exC6published))) :=
  ⟨rfl, rfl,
    (subscribe_stream_semantics exC6mgr "t6" exC6task exC6published rfl rfl).1⟩

theorem findSkillMatch_isSome (msgLower : String)
    (agentSkills : List (String × List String)) (url : String) (ids : List String)
    (skillId : String) (h1 : (url, ids) ∈ agentSkills) (h2 : skillId ∈ ids)
    (h3 : strContains msgLower skillId = true) :
    (findSkillMatch msgLower agentSkills).isSome = true := by
  induction agentSkills with
  | nil => cases h1
  | cons p rest ih =>
    obtain ⟨u2, ids2⟩ := p
    rcases List.mem_cons.1 h1 with heq | hmem
    · injection heq with hu hi
      subst hu
      subst hi
      have hfind : (ids.find? (fun sk => strContains msgLower sk)).isSome := by
        rw [List.find?_isSome]
        exact ⟨skillId, h2, h3⟩
      obtain ⟨r, hr⟩ := Option.isSome_iff_exists.1 hfind
      simp [findSkillMatch, hr]
    · unfold findSkillMatch
      cases hf : ids2.find? (fun sk => strContains msgLower sk) with
      | some r => simp
      | none => exact ih hmem

theorem pollUntilTerminal_ok_terminal (polls : List (Except String Task)) :
    ∀ (t tf : Task), pollUntilTerminal t polls = some (Except.ok tf) →
      isFinalState tf.status.state = true := by
  induction polls with
  | nil =>
    intro t tf h
    unfold pollUntilTerminal at h
    by_cases hfin : isFinalState t.status.state
    · simp [hfin] at h
      rw [← h]
      exact hfin
    · simp [hfin] at h
  | cons r rest ih =>
    intro t tf h
    unfold pollUntilTerminal at h
    by_cases hfin : isFinalState t.status.state
    · simp [hfin] at h
      rw [← h]
      exact hfin
    · cases r with
      | error e => simp [hfin] at h
      | ok t2 =>
        simp [hfin] at h
        exact ih t2 tf h

/-- C9: when a connected remote's skill id occurs as a substring of the
lowercased message, skill extraction succeeds and the host routes the
message to the remote interaction; the poll loop only ever finishes on a
terminal task snapshot; the response text of a COMPLETED task is the
status message's text parts joined by a space when a message is present,
otherwise the artifact text parts in declaration order joined by a blank
line; every failure of the remote interaction (card fetch, send, or a
poll) is returned as the human-readable string
`Error processing task with remote agent: ...` rather than raised; and
the poll interval constant is 500 milliseconds. -/
theorem host_routing_semantics :
    (∀ (agentSkills : List (String × List String)) (message url : String)
        (ids : List String) (skillId : String),
      (url, ids) ∈ agentSkills → skillId ∈ ids →
      strContains (strToLower message) skillId = true →
      (extractSkillInfo agentSkills message).isSome = true)
    ∧ (∀ (remoteUrls : List String) (agentSkills : List (String × List String))
        (message : String) (pr : String × String) (card : Except String Unit)
        (send : Except String Task) (polls : List (Except String Task)),
        remoteUrls ≠ [] → extractSkillInfo agentSkills message = some pr →
        hostProcessMessage remoteUrls agentSkills message card send polls
          = routeToRemote card send polls)
    ∧ (∀ (t : Task) (polls : List (Except String Task)) (tf : Task),
        pollUntilTerminal t polls = some (Except.ok tf) →
        isFinalState tf.status.state = true)
    ∧ (∀ (t tf : Task) (polls : List (Except String Task)),
        pollUntilTerminal t polls = some (Except.ok tf) →
        routeToRemote (Except.ok ()) (Except.ok t) polls = some (extractResponse tf))
    ∧ (∀ (tf : Task) (m : Message), tf.status.state = TaskState.COMPLETED →
        tf.status.message = some m →
        extractResponse tf = String.intercalate " " (m.parts.filterMap Part.textOf))
    ∧ (∀ (tf : Task) (a : Artifact) (rest : List Artifact),
        tf.status.state = TaskState.COMPLETED → tf.status.message = none →
        tf.artifacts = some (a :: rest) →
        extractResponse tf = String.intercalate "\n\n" (artifactTexts (a :: rest)))
    ∧ (∀ (e : String) (send : Except String Task) (polls : List (Except String Task)),
        routeToRemote (Except.error e) send polls
          = some ("Error processing task with remote agent: " ++ e))
    ∧ (∀ (e : String) (polls : List (Except String Task)),
        routeToRemote (Except.ok ()) (Except.error e) polls
          = some ("Error processing task with remote agent: " ++ e))
    ∧ (∀ (t : Task) (e : String) (polls : List (Except String Task)),
        pollUntilTerminal t polls = some (Except.error e) →
        routeToRemote (Except.ok ()) (Except.ok t) polls
          = some ("Error processing task with remote agent: " ++ e))
    ∧ pollIntervalSeconds * 1000 = 500 := by
  refine ⟨?_, ?_, ?_, ?_, ?_, ?_, ?_, ?_, ?_, ?_⟩
  · intro agentSkills message url ids skillId h1 h2 h3
    have hf := findSkillMatch_isSome (strToLower message) agentSkills url ids skillId h1 h2 h3
    obtain ⟨r, hr⟩ := Option.isSome_iff_exists.1 hf
    simp [extractSkillInfo, hr]
  · intro remoteUrls agentSkills message pr card send polls hne hext
    unfold hostProcessMessage
    rw [if_neg hne, hext]
  · exact fun t polls tf h => pollUntilTerminal_ok_terminal polls t tf h
  · intro t tf polls h
    simp [routeToRemote, h]
  · intro tf m hstate hmsg
    unfold extractResponse extractMessageText
    simp [hstate, hmsg]
  · intro tf a rest hstate hmsg harts
    unfold extractResponse
    simp [hstate, hmsg, harts]
  · intro e send polls
    rfl
  · intro e polls
    rfl
  · intro t e polls h
    simp [routeToRemote, h]
  · norm_num [pollIntervalSeconds]

/-- Witness for C9 at the concrete fixture: the message mentioning
`aws-to-gcp` matches the remote's skill, routing sends and polls to the
terminal COMPLETED snapshot, and the returned text is the terminal
status message's text. -/
theorem host_routing_semantics_witness :
    (extractSkillInfo exC9skills exC9msg).isSome = true
    ∧ hostProcessMessage ["remote-a"] exC9skills exC9msg (Except.ok ())
        (Except.ok exC9task0) [Except.ok exC9taskF] = some "done"
    ∧ pollIntervalSeconds * 1000 = 500 := by
  refine ⟨host_routing_semantics.1 exC9skills exC9msg "remote-a" ["aws-to-gcp"] "aws-to-gcp"
      (by simp [exC9skills]) (by simp) (by decide), ?_, by norm_num [pollIntervalSeconds]⟩
  rfl

end A2A
